import Mathlib

/-!
Verification of the gfet-microfluidics-experiments instrument coordination
layer.  The Python sources are embedded shallowly: serial/instrument streams
become explicit lists of response lines or samples, the blocking send loop
becomes a recursion over the remaining response lines, and background worker
interaction is modelled by the sequencer-thread event trace.
-/

namespace GfetMicro

/-- Channel descriptor, from `microfluidics.py` (`class Channel(Enum)`). -/
inductive Channel
  | WSHL
  | CH01
  | CH02
  | CH03
  | CH04
  | CH05
  | CH06
  | CH07
  | CH08
  | VENT
deriving DecidableEq, Repr, Inhabited

/-- Numeric identifier of a channel (the Python enum value). -/
def Channel.value : Channel → Nat
  | .WSHL => 0
  | .CH01 => 1
  | .CH02 => 2
  | .CH03 => 3
  | .CH04 => 4
  | .CH05 => 5
  | .CH06 => 6
  | .CH07 => 7
  | .CH08 => 8
  | .VENT => 9

/-- The members of the `Channel` enum, in declaration order. -/
def channelMembers : List Channel :=
  [.WSHL, .CH01, .CH02, .CH03, .CH04, .CH05, .CH06, .CH07, .CH08, .VENT]

/-- `REAGENT_CHANNELS`: every channel except `WSHL` and `VENT`. -/
def REAGENT_CHANNELS : List Channel :=
  channelMembers.filter (fun c => !(c == Channel.WSHL || c == Channel.VENT))

/-- `compile_command` from `microfluidics.py`: the f-string
`"{command} {subcommand} {channel.value} -T {seconds} -R {rpm}\n"`. -/
def compile_command (command subcommand : String) (channel : Channel)
    (seconds rpm : Int) : String :=
  command ++ " " ++ subcommand ++ " " ++ toString channel.value ++ " -T " ++
    toString seconds ++ " -R " ++ toString rpm ++ "\n"

/-- Modelled from the spec: the wire format of a request in the spec's words,
`"<VERB> <QUALIFIER> <channel-id> -T <seconds> -R <rpm>\n"` (spec section 6),
written independently of `compile_command` for comparison. -/
def wireFormatSpec (verb qualifier : String) (channelId : Nat)
    (seconds rpm : Int) : String :=
  verb ++ " " ++ qualifier ++ " " ++ toString channelId ++ " -T " ++
    toString seconds ++ " -R " ++ toString rpm ++ "\n"

/-- Outcome of the blocking send loop in `microfluidics.py`:
either success (after some number of 0.5 s polling waits) or a raised
exception carrying the error message (after some number of waits). -/
inductive SendOutcome
  | success (waits : Nat)
  | rejected (message : String) (waits : Nat)
deriving DecidableEq, Repr

/-- The exception message raised by `send_and_wait_for_response` in
`microfluidics.py` on an `"ERR"` response:
`f"{line_num} | {response} | Error executing command (\x27{cmd}\x27)"`
(with `response = "ERR"` in that branch). -/
def mfErrorMessage (lineNum : Int) (cmd : String) : String :=
  toString lineNum ++ " | ERR | Error executing command (\x27" ++ cmd ++ "\x27)"

/-- The read loop of `send_and_wait_for_response` in `microfluidics.py`,
as a function of the remaining (already stripped) response lines.  An
`"ERR"` line raises; a `"FIN"` line breaks with success; any other line
(in particular the empty line) sleeps 0.5 s — counted in `waits` — and
reads again.  `none` means the line list was exhausted with the loop
still polling. -/
def sendLoopMF (cmd : String) (lineNum : Int) :
    List String → Nat → Option SendOutcome
  | [], _ => none
  | response :: rest, waits =>
    if response = "ERR" then
      some (.rejected (mfErrorMessage lineNum cmd) waits)
    else if response = "FIN" then
      some (.success waits)
    else
      sendLoopMF cmd lineNum rest (waits + 1)

/-- Observable effect of one call to `send_and_wait_for_response`
(`microfluidics.py`): the list of writes made to the port and the loop
outcome. -/
structure SendTrace where
  writes : List String
  outcome : Option SendOutcome
deriving Repr

/-- `send_and_wait_for_response` from `microfluidics.py`: encodes and writes
the command once, then runs the read loop over the port's response lines. -/
def send_and_wait_for_response (cmd : String) (lineNum : Int)
    (lines : List String) : SendTrace :=
  { writes := [cmd], outcome := sendLoopMF cmd lineNum lines 0 }

/-- Outcome of the send loop in `fluid_detection.py`, which differs
textually from the `microfluidics.py` one (checks `"FIN"` first, no
sleep, different message). -/
inductive FdOutcome
  | success
  | failure (message : String)
deriving DecidableEq, Repr

/-- The exception message raised by `send_and_wait_for_response` in
`fluid_detection.py`: `f"{line_num} | Error executing command."`. -/
def fdErrorMessage (lineNum : Int) : String :=
  toString lineNum ++ " | Error executing command."

/-- The read loop of `send_and_wait_for_response` in `fluid_detection.py`:
`"FIN"` breaks with success, `"ERR"` raises, any other line just reads
again (no sleep). -/
def sendLoopFD (lineNum : Int) : List String → Option FdOutcome
  | [] => none
  | response :: rest =>
    if response = "FIN" then some .success
    else if response = "ERR" then some (.failure (fdErrorMessage lineNum))
    else sendLoopFD lineNum rest

/-- The first response line that is a protocol signal (`"FIN"` or `"ERR"`),
if any. -/
def firstSignal : List String → Option String
  | [] => none
  | r :: rest => if r = "FIN" ∨ r = "ERR" then some r else firstSignal rest

/-- Success/failure classification of a `microfluidics.py` loop outcome. -/
def SendOutcome.isSuccess : SendOutcome → Bool
  | .success _ => true
  | .rejected _ _ => false

/-- Success/failure classification of a `fluid_detection.py` loop outcome. -/
def FdOutcome.isSuccess : FdOutcome → Bool
  | .success => true
  | .failure _ => false

/-- Protocol error raised before serialization when a verb/qualifier/channel
combination is rejected (the `assert` statements in `microfluidics.py`). -/
inductive MfError
  | InvalidCombination (detail : String)
deriving DecidableEq, Repr

/-- Observable effect of one wrapper operation in `microfluidics.py`: the
writes made to the stream and either the validation error or the send-loop
outcome. -/
structure OpTrace where
  writes : List String
  result : Except MfError (Option SendOutcome)

/-- A wrapper body that passed validation: it performs the
`send_and_wait_for_response` exchange for the compiled command. -/
def opSend (cmd : String) (lines : List String) : OpTrace :=
  { writes := [cmd], result := .ok (sendLoopMF cmd (-1) lines 0) }

/-- A wrapper body that failed its `assert`: nothing is written. -/
def opReject (detail : String) : OpTrace :=
  { writes := [], result := .error (.InvalidCombination detail) }

/-- `prime` from `microfluidics.py`: asserts the qualifier is `"CHEM_WASH"`
or `"-C"`, then sends `PRIME`. -/
def prime (command : String) (channel : Channel) (seconds rpm : Int)
    (lines : List String) : OpTrace :=
  if command = "CHEM_WASH" ∨ command = "-C" then
    opSend (compile_command "PRIME" command channel seconds rpm) lines
  else opReject "prime"

/-- `prime_wash_to_channel` from `microfluidics.py`: asserts the channel is
a reagent channel or `WSHL`, then primes `CHEM_WASH` to it. -/
def prime_wash_to_channel (channel : Channel) (seconds rpm : Int)
    (lines : List String) : OpTrace :=
  if channel ∈ REAGENT_CHANNELS ++ [Channel.WSHL] then
    prime "CHEM_WASH" channel seconds rpm lines
  else opReject "prime_wash_to_channel"

/-- `prime_reagent_to_channel` from `microfluidics.py`: asserts the channel
is a reagent channel, then primes `CHEM_WASH` to it. -/
def prime_reagent_to_channel (channel : Channel) (seconds rpm : Int)
    (lines : List String) : OpTrace :=
  if channel ∈ REAGENT_CHANNELS then
    prime "CHEM_WASH" channel seconds rpm lines
  else opReject "prime_reagent_to_channel"

/-- `wash` from `microfluidics.py`: asserts the qualifier is `"-C"`,
`"COLLECTION"` or `"COMMON"`, then sends `WASH`. -/
def wash (command : String) (channel : Channel) (seconds rpm : Int)
    (lines : List String) : OpTrace :=
  if command = "-C" ∨ command = "COLLECTION" ∨ command = "COMMON" then
    opSend (compile_command "WASH" command channel seconds rpm) lines
  else opReject "wash"

/-- `wash_common` from `microfluidics.py`. -/
def wash_common (seconds rpm : Int) (lines : List String) : OpTrace :=
  wash "COMMON" Channel.WSHL seconds rpm lines

/-- `wash_chip` from `microfluidics.py`. -/
def wash_chip (seconds rpm : Int) (lines : List String) : OpTrace :=
  wash "COLLECTION" Channel.WSHL seconds rpm lines

/-- `vent` from `microfluidics.py`: asserts the qualifier is `"ALL"` or
`"COMMON"`, then sends `PURGE` — always on `Channel.WSHL`. -/
def vent (command : String) (seconds rpm : Int)
    (lines : List String) : OpTrace :=
  if command = "ALL" ∨ command = "COMMON" then
    opSend (compile_command "PURGE" command Channel.WSHL seconds rpm) lines
  else opReject "vent"

/-- `vent_common` from `microfluidics.py`. -/
def vent_common (seconds rpm : Int) (lines : List String) : OpTrace :=
  vent "COMMON" seconds rpm lines

/-- `vent_chip2waste` from `microfluidics.py`. -/
def vent_chip2waste (seconds rpm : Int) (lines : List String) : OpTrace :=
  vent "ALL" seconds rpm lines

/-- `collect` from `microfluidics.py`: asserts the channel is a reagent
channel or `VENT`, then sends `COLLECT -C`. -/
def collect (channel : Channel) (seconds rpm : Int)
    (lines : List String) : OpTrace :=
  if channel ∈ REAGENT_CHANNELS ++ [Channel.VENT] then
    opSend (compile_command "COLLECT" "-C" channel seconds rpm) lines
  else opReject "collect"

/-- `vent_chip2collection` from `microfluidics.py`: `collect` on `VENT`. -/
def vent_chip2collection (seconds rpm : Int) (lines : List String) : OpTrace :=
  collect Channel.VENT seconds rpm lines

/-- The drain-resistance expression shared by `read_smu_continuously.py`
(`read_values`) and `fluid_detection.py` (`run_smu`):
`"" if drain_c == 0.0 else abs((drain_v/drain_c)/1000)`.  Python floats are
idealised as exact rationals; the empty-string sentinel becomes `none`, so
the division is never evaluated when the current is zero. -/
def drain_resistance (drain_voltage drain_current : Rat) : Option Rat :=
  if drain_current = 0 then none
  else some (abs (drain_voltage / drain_current / 1000))

/-- One raw instrument sample delivered to the acquisition loop. -/
structure SmuSample where
  drain_voltage : Rat
  drain_current : Rat
  gate_voltage : Rat
  gate_current : Rat
deriving DecidableEq, Repr

/-- One assembled reading of the `run_smu` acquisition loop in
`fluid_detection.py` (the `_reading` dict). -/
structure SmuReading where
  t : Nat
  drain_voltage : Rat
  drain_current : Rat
  drain_resistance : Option Rat
  gate_voltage : Rat
  gate_current : Rat
deriving DecidableEq, Repr

/-- Assembly of the `_reading` dict from the loop counter and a sample. -/
def mkReading (i : Nat) (s : SmuSample) : SmuReading :=
  { t := i
    drain_voltage := s.drain_voltage
    drain_current := s.drain_current
    drain_resistance := drain_resistance s.drain_voltage s.drain_current
    gate_voltage := s.gate_voltage
    gate_current := s.gate_current }

/-- The field order of the `_reading` dict, which `write_results` uses as
the CSV header. -/
def smuFieldnames : List String :=
  ["t", "drain_voltage", "drain_current", "drain_resistance",
   "gate_voltage", "gate_current"]

/-- State of the result file.  `none` models a file never written by the
worker; otherwise the header row plus the rows currently in the file. -/
structure SinkState where
  content : Option (List String × List SmuReading)
deriving Repr

/-- `write_results` from `gfet/generic.py`: opens the file in `"w"` mode,
so the previous content is discarded, and writes the header plus one row
per accumulated reading. -/
def write_results (results : List SmuReading) (_sink : SinkState) : SinkState :=
  { content := some (smuFieldnames, results) }

/-- The body of `run_smu` in `fluid_detection.py`, as a fold over the finite
list of samples the instrument delivers before the stop flag is observed:
each iteration assembles a reading, appends it to the accumulated sequence,
increments the counter, and rewrites the whole sink. -/
def run_smu_loop (samples : List SmuSample) (i : Nat)
    (results : List SmuReading) (sink : SinkState) :
    List SmuReading × SinkState :=
  match samples with
  | [] => (results, sink)
  | s :: rest =>
    run_smu_loop rest (i + 1) (results ++ [mkReading i s])
      (write_results (results ++ [mkReading i s]) sink)

/-- `run_smu` from `fluid_detection.py`, started on a fresh session:
counter 0, empty accumulated sequence, whatever sink was there before. -/
def run_smu (samples : List SmuSample) (sink : SinkState) :
    List SmuReading × SinkState :=
  run_smu_loop samples 0 [] sink

/-- An observable step of `pump_and_read` in `isswisafre.py`: one fluidic
command exchange (`command(1)`), one instrument reading at a grid point, or
turning one instrument output off. -/
inductive PumpEvent
  | command (seconds : Int)
  | reading (gate_voltage channel_voltage : Rat)
  | outputOff (terminalA : Bool)
deriving DecidableEq, Repr

/-- The inner double loop of `pump_and_read`: for each gate voltage, for
each channel voltage, one reading. -/
def gridReadings (gate_voltages channel_voltages : List Rat) : List PumpEvent :=
  gate_voltages.flatMap fun g =>
    channel_voltages.map fun c => PumpEvent.reading g c

/-- One body of the outer `while _counter < seconds` loop of
`pump_and_read`: `command(1)`, the full grid sweep, then both SMU outputs
off. -/
def pumpIteration (G C : List Rat) : List PumpEvent :=
  PumpEvent.command 1 ::
    (gridReadings G C ++ [PumpEvent.outputOff true, PumpEvent.outputOff false])

/-- The outer loop of `pump_and_read` (`isswisafre.py`): `_counter` starts
at 0 and the loop body runs while `_counter < seconds`. -/
def pump_loop (G C : List Rat) (seconds counter : Int) : List PumpEvent :=
  if _h : counter < seconds then
    pumpIteration G C ++ pump_loop G C seconds (counter + 1)
  else []
termination_by (seconds - counter).toNat
decreasing_by
  omega

/-- `pump_and_read` from `isswisafre.py`, as its event trace. -/
def pump_and_read (G C : List Rat) (seconds : Int) : List PumpEvent :=
  pump_loop G C seconds 0

/-- The readings yielded by a `pump_and_read` event trace, in order. -/
def readingsOf : List PumpEvent → List (Rat × Rat)
  | [] => []
  | PumpEvent.reading g c :: rest => (g, c) :: readingsOf rest
  | _ :: rest => readingsOf rest

/-- Result of `connect` in `gfet/keithley.py`. -/
inductive ConnectResult
  | connected (retryIndex : Int)
  | failed (message : String)
deriving DecidableEq, Repr

/-- Observable effect of `connect`: its result, how many in-loop
`inst.connect()` attempts it made, and how many fixed backoff sleeps
(`seconds_between_retries`) it performed. -/
structure ConnectTrace where
  result : ConnectResult
  attempts : Nat
  sleeps : Nat
deriving DecidableEq, Repr

/-- The `KeithleyIOError` message of `connect`:
`f"Failed to connect to Keithley after {retries} attempts."`. -/
def connectFailureMessage (retries : Int) : String :=
  "Failed to connect to Keithley after " ++ toString retries ++ " attempts."

/-- The retry loop of `connect` (`gfet/keithley.py`): `retry` starts at 2;
while the instrument is not connected, if `retry > retries` raise the
error, otherwise attempt `inst.connect()` (modelled by the `succeeds`
oracle, indexed by the retry counter), returning on success and otherwise
sleeping the fixed backoff and incrementing `retry`. -/
def connect_loop (succeeds : Int → Bool) (retries retry : Int)
    (attempts sleeps : Nat) : ConnectTrace :=
  if h : retries < retry then
    { result := .failed (connectFailureMessage retries)
      attempts := attempts
      sleeps := sleeps }
  else if succeeds retry then
    { result := .connected retry, attempts := attempts + 1, sleeps := sleeps }
  else
    connect_loop succeeds retries (retry + 1) (attempts + 1) (sleeps + 1)
termination_by (retries + 1 - retry).toNat
decreasing_by
  omega

/-- `connect` from `gfet/keithley.py`: if the constructor already
established the link the loop never runs; otherwise the retry loop starts
at `retry = 2`. -/
def connect (initially_connected : Bool) (succeeds : Int → Bool)
    (retries : Int) : ConnectTrace :=
  if initially_connected then
    { result := .connected 0, attempts := 0, sleeps := 0 }
  else connect_loop succeeds retries 2 0 0

/-- One sequencer-thread event of `run_fluid_detection_loop`
(`fluid_detection.py`): starting the acquisition worker, one fluidic
command exchange (with its wire string), setting the worker's stop flag,
or joining the worker thread. -/
inductive SeqEvent
  | startWorker (channel : Channel)
  | fluidCommand (wire : String)
  | stopWorker (channel : Channel)
  | joinWorker (channel : Channel)
deriving DecidableEq, Repr, Inhabited

/-- The wire command written by `collect(mfd_port, channel, seconds)` with
the default rpm (36). -/
def collectEvent (channel : Channel) (seconds : Int) : SeqEvent :=
  .fluidCommand (compile_command "COLLECT" "-C" channel seconds 36)

/-- The event trace of one iteration of the `for chan in REAGENT_CHANNELS`
loop in `run_fluid_detection_loop` (`fluid_detection.py`, lines 172-187):
start the SMU worker, vent to collection for 120 s, five (collect 5 s, vent
1 s) plug pairs, collect 90 s, vent 120 s, then stop and join the worker. -/
def channelPhaseEvents (channel : Channel) : List SeqEvent :=
  [SeqEvent.startWorker channel, collectEvent Channel.VENT 120]
  ++ (List.replicate 5 [collectEvent channel 5, collectEvent Channel.VENT 1]).flatten
  ++ [collectEvent channel 90, collectEvent Channel.VENT 120,
      SeqEvent.stopWorker channel, SeqEvent.joinWorker channel]

/-- The full sequencer-thread event trace of `run_fluid_detection_loop`. -/
def run_fluid_detection_loop_events : List SeqEvent :=
  REAGENT_CHANNELS.flatMap channelPhaseEvents

/-- Whether an event is a fluidic command exchange. -/
def isFluidCommand : SeqEvent → Bool
  | .fluidCommand _ => true
  | _ => false

/-- Whether an event starts the acquisition worker. -/
def isStartWorker : SeqEvent → Bool
  | .startWorker _ => true
  | _ => false

/-- Whether an event joins the acquisition worker. -/
def isJoinWorker : SeqEvent → Bool
  | .joinWorker _ => true
  | _ => false

/-- Number of events matching `p` strictly before index `i` of the trace. -/
def countBefore (p : SeqEvent → Bool) (trace : List SeqEvent) (i : Nat) : Nat :=
  ((trace.take i).filter p).length

/-- Whether, just before index `i`, every started worker has been joined. -/
def workerIdleAt (trace : List SeqEvent) (i : Nat) : Bool :=
  countBefore isStartWorker trace i == countBefore isJoinWorker trace i

/-- The mutual-exclusion discipline as the claim states it: every fluidic
command in the sequencer trace is issued only when every started worker has
already been joined. -/
def mutualExclusionCheck (trace : List SeqEvent) : Bool :=
  (List.range trace.length).all fun i =>
    !(isFluidCommand (trace.getD i default)) || workerIdleAt trace i

/-- The behaviour the trace actually has: every fluidic command is issued
while exactly one started worker is still unjoined. -/
def fluidDuringWorkerCheck (trace : List SeqEvent) : Bool :=
  (List.range trace.length).all fun i =>
    !(isFluidCommand (trace.getD i default)) ||
      (countBefore isJoinWorker trace i + 1 == countBefore isStartWorker trace i)

end GfetMicro

open GfetMicro

/-- C3: for every verb, qualifier, channel and integers `seconds` and `rpm`,
`compile_command` serializes the command to exactly the single line
`"<VERB> <QUALIFIER> <channel-id> -T <seconds> -R <rpm>\n"` of the wire
protocol, terminated by a newline, where the channel id is the channel's
numeric identifier. -/
theorem claim_C3 (verb qualifier : String) (channel : GfetMicro.Channel)
    (seconds rpm : Int) :
    GfetMicro.compile_command verb qualifier channel seconds rpm
      = GfetMicro.wireFormatSpec verb qualifier channel.value seconds rpm
    ∧ ∃ body, GfetMicro.compile_command verb qualifier channel seconds rpm
      = body ++ "\n" :=
  ⟨rfl, ⟨_, rfl⟩⟩

/-- Helper: the `microfluidics.py` loop succeeds exactly when the first
protocol signal among the response lines is `"FIN"`, at any wait count. -/
theorem sendLoopMF_success_iff (cmd : String) (lineNum : Int) :
    ∀ (lines : List String) (w : Nat),
      (∃ v, sendLoopMF cmd lineNum lines w = some (SendOutcome.success v))
        ↔ firstSignal lines = some "FIN" := by
  intro lines
  induction lines with
  | nil => intro w; simp [sendLoopMF, firstSignal]
  | cons r rest ih =>
      intro w
      by_cases hE : r = "ERR"
      · subst hE
        simp [sendLoopMF, firstSignal]
      · by_cases hF : r = "FIN"
        · subst hF
          simp [sendLoopMF, firstSignal]
        · simp [sendLoopMF, firstSignal, hE, hF, ih]

/-- Helper: the `microfluidics.py` loop raises the rejection exception
(carrying the command) exactly when the first protocol signal is `"ERR"`. -/
theorem sendLoopMF_rejected_iff (cmd : String) (lineNum : Int) :
    ∀ (lines : List String) (w : Nat),
      (∃ v, sendLoopMF cmd lineNum lines w
          = some (SendOutcome.rejected (mfErrorMessage lineNum cmd) v))
        ↔ firstSignal lines = some "ERR" := by
  intro lines
  induction lines with
  | nil => intro w; simp [sendLoopMF, firstSignal]
  | cons r rest ih =>
      intro w
      by_cases hE : r = "ERR"
      · subst hE
        simp [sendLoopMF, firstSignal]
      · by_cases hF : r = "FIN"
        · subst hF
          simp [sendLoopMF, firstSignal]
        · simp [sendLoopMF, firstSignal, hE, hF, ih]

/-- Helper: the `fluid_detection.py` loop succeeds exactly when the first
protocol signal is `"FIN"`. -/
theorem sendLoopFD_success_iff (lineNum : Int) :
    ∀ lines : List String,
      sendLoopFD lineNum lines = some FdOutcome.success
        ↔ firstSignal lines = some "FIN" := by
  intro lines
  induction lines with
  | nil => simp [sendLoopFD, firstSignal]
  | cons r rest ih =>
      by_cases hF : r = "FIN"
      · subst hF
        simp [sendLoopFD, firstSignal]
      · by_cases hE : r = "ERR"
        · subst hE
          simp [sendLoopFD, firstSignal]
        · simp [sendLoopFD, firstSignal, hE, hF, ih]

/-- Helper: the `fluid_detection.py` loop raises exactly when the first
protocol signal is `"ERR"`. -/
theorem sendLoopFD_failure_iff (lineNum : Int) :
    ∀ lines : List String,
      sendLoopFD lineNum lines = some (FdOutcome.failure (fdErrorMessage lineNum))
        ↔ firstSignal lines = some "ERR" := by
  intro lines
  induction lines with
  | nil => simp [sendLoopFD, firstSignal]
  | cons r rest ih =>
      by_cases hF : r = "FIN"
      · subst hF
        simp [sendLoopFD, firstSignal]
      · by_cases hE : r = "ERR"
        · subst hE
          simp [sendLoopFD, firstSignal]
        · simp [sendLoopFD, firstSignal, hE, hF, ih]

/-- Helper: the two loops have the same success/failure classification on
every response-line sequence. -/
theorem sendLoop_class_eq (cmd : String) (lineNumA lineNumB : Int) :
    ∀ (lines : List String) (w : Nat),
      (sendLoopMF cmd lineNumA lines w).map SendOutcome.isSuccess
        = (sendLoopFD lineNumB lines).map FdOutcome.isSuccess := by
  intro lines
  induction lines with
  | nil => intro w; simp [sendLoopMF, sendLoopFD]
  | cons r rest ih =>
      intro w
      by_cases hE : r = "ERR"
      · subst hE
        simp [sendLoopMF, sendLoopFD, SendOutcome.isSuccess, FdOutcome.isSuccess]
      · by_cases hF : r = "FIN"
        · subst hF
          simp [sendLoopMF, sendLoopFD, SendOutcome.isSuccess, FdOutcome.isSuccess]
        · simp [sendLoopMF, sendLoopFD, hE, hF, ih]

/-- C1: `send_and_wait_for_response` writes the serialized command exactly
once and then reads lines one at a time: if the first protocol signal in the
response stream is `"FIN"` it reports success (and it reports success only
then); if it is `"ERR"` it raises the rejection exception whose message
includes the original command text; each non-signal line (e.g. an empty
line) costs one fixed 0.5 s wait before the next read; in particular on the
stream `["", "", "ERR"]` followed by anything, it waits twice and then
fails with the rejection. -/
theorem claim_C1 (cmd : String) (lineNum : Int) (lines : List String) :
    (send_and_wait_for_response cmd lineNum lines).writes = [cmd]
    ∧ (firstSignal lines = some "FIN" →
        ∃ w, (send_and_wait_for_response cmd lineNum lines).outcome
          = some (SendOutcome.success w))
    ∧ (firstSignal lines = some "ERR" →
        ∃ w, (send_and_wait_for_response cmd lineNum lines).outcome
          = some (SendOutcome.rejected (mfErrorMessage lineNum cmd) w))
    ∧ (∀ w, (send_and_wait_for_response cmd lineNum lines).outcome
          = some (SendOutcome.success w) → firstSignal lines = some "FIN")
    ∧ (∃ p q, mfErrorMessage lineNum cmd = p ++ cmd ++ q)
    ∧ (send_and_wait_for_response cmd lineNum ("" :: "" :: "ERR" :: lines)).outcome
        = some (SendOutcome.rejected (mfErrorMessage lineNum cmd) 2) := by
  refine ⟨rfl, ?_, ?_, ?_, ⟨_, _, rfl⟩, rfl⟩
  · intro h
    exact (sendLoopMF_success_iff cmd lineNum lines 0).mpr h
  · intro h
    exact (sendLoopMF_rejected_iff cmd lineNum lines 0).mpr h
  · intro w h
    exact (sendLoopMF_success_iff cmd lineNum lines 0).mp ⟨w, h⟩

/-- Witness for C1 at concrete inputs: a stream answering `"FIN"` gives
success after one write of the command, and the stream `["", "", "ERR"]`
gives the rejection carrying the command. -/
theorem claim_C1_witness :
    (send_and_wait_for_response "GO" (-1) ["FIN"]).writes = ["GO"]
    ∧ (∃ w, (send_and_wait_for_response "GO" (-1) ["FIN"]).outcome
        = some (SendOutcome.success w))
    ∧ (∃ w, (send_and_wait_for_response "GO" (-1) ["", "", "ERR"]).outcome
        = some (SendOutcome.rejected (mfErrorMessage (-1) "GO") w)) :=
  ⟨(claim_C1 "GO" (-1) ["FIN"]).1,
   (claim_C1 "GO" (-1) ["FIN"]).2.1 (by decide),
   (claim_C1 "GO" (-1) ["", "", "ERR"]).2.2.1 (by decide)⟩

/-- C10: the two `send_and_wait_for_response` implementations
(`microfluidics.py` and `fluid_detection.py`) are behaviourally equivalent
as functions of the stripped response-line sequence: they have the same
success/failure classification on every sequence, both report success
exactly when `"FIN"` occurs before any `"ERR"`, and both raise exactly when
`"ERR"` occurs first. -/
theorem claim_C10 (cmd : String) (lineNumA lineNumB : Int)
    (lines : List String) :
    ((sendLoopMF cmd lineNumA lines 0).map SendOutcome.isSuccess
      = (sendLoopFD lineNumB lines).map FdOutcome.isSuccess)
    ∧ ((∃ w, sendLoopMF cmd lineNumA lines 0 = some (SendOutcome.success w))
        ↔ firstSignal lines = some "FIN")
    ∧ ((∃ w, sendLoopMF cmd lineNumA lines 0
          = some (SendOutcome.rejected (mfErrorMessage lineNumA cmd) w))
        ↔ firstSignal lines = some "ERR")
    ∧ (sendLoopFD lineNumB lines = some FdOutcome.success
        ↔ firstSignal lines = some "FIN")
    ∧ (sendLoopFD lineNumB lines
          = some (FdOutcome.failure (fdErrorMessage lineNumB))
        ↔ firstSignal lines = some "ERR") :=
  ⟨sendLoop_class_eq cmd lineNumA lineNumB lines 0,
   sendLoopMF_success_iff cmd lineNumA lines 0,
   sendLoopMF_rejected_iff cmd lineNumA lines 0,
   sendLoopFD_success_iff lineNumB lines,
   sendLoopFD_failure_iff lineNumB lines⟩

/-- Witness for C10 at a concrete stream: on `["", "ERR", "FIN"]` both
implementations classify the exchange as a failure. -/
theorem claim_C10_witness :
    (sendLoopMF "GO2" (-1) ["", "ERR", "FIN"] 0).map SendOutcome.isSuccess
      = (sendLoopFD (-1) ["", "ERR", "FIN"]).map FdOutcome.isSuccess
    ∧ (sendLoopFD (-1) ["", "ERR", "FIN"]
        = some (FdOutcome.failure (fdErrorMessage (-1)))
      ↔ firstSignal ["", "ERR", "FIN"] = some "ERR") :=
  ⟨(claim_C10 "GO2" (-1) (-1) ["", "ERR", "FIN"]).1,
   (claim_C10 "GO2" (-1) (-1) ["", "ERR", "FIN"]).2.2.2.2⟩

/-- C4: each wrapper validates its (verb, qualifier, channel) combination
before serialization: a `WASH` qualifier outside `{-C, COLLECTION, COMMON}`,
a `PRIME` qualifier outside `{CHEM_WASH, -C}`, a `COLLECT` target outside
the reagent channels plus `VENT`, a `PURGE` qualifier outside
`{ALL, COMMON}` or a wash-prime target outside the primeable channels fails
with `InvalidCombination` and nothing is written to the stream; every
accepted combination writes exactly the wire string of the wire-protocol
specification. -/
theorem claim_C4 (command : String) (channel : Channel) (seconds rpm : Int)
    (lines : List String) :
    (command ∉ (["-C", "COLLECTION", "COMMON"] : List String) →
      (wash command channel seconds rpm lines).writes = []
      ∧ ∃ d, (wash command channel seconds rpm lines).result
          = .error (MfError.InvalidCombination d))
    ∧ (command ∈ (["-C", "COLLECTION", "COMMON"] : List String) →
      (wash command channel seconds rpm lines).writes
        = [wireFormatSpec "WASH" command channel.value seconds rpm])
    ∧ (command ∉ (["CHEM_WASH", "-C"] : List String) →
      (prime command channel seconds rpm lines).writes = []
      ∧ ∃ d, (prime command channel seconds rpm lines).result
          = .error (MfError.InvalidCombination d))
    ∧ (command ∈ (["CHEM_WASH", "-C"] : List String) →
      (prime command channel seconds rpm lines).writes
        = [wireFormatSpec "PRIME" command channel.value seconds rpm])
    ∧ (command ∉ (["ALL", "COMMON"] : List String) →
      (vent command seconds rpm lines).writes = []
      ∧ ∃ d, (vent command seconds rpm lines).result
          = .error (MfError.InvalidCombination d))
    ∧ (command ∈ (["ALL", "COMMON"] : List String) →
      (vent command seconds rpm lines).writes
        = [wireFormatSpec "PURGE" command Channel.WSHL.value seconds rpm])
    ∧ (channel ∉ REAGENT_CHANNELS ++ [Channel.VENT] →
      (collect channel seconds rpm lines).writes = []
      ∧ ∃ d, (collect channel seconds rpm lines).result
          = .error (MfError.InvalidCombination d))
    ∧ (channel ∈ REAGENT_CHANNELS ++ [Channel.VENT] →
      (collect channel seconds rpm lines).writes
        = [wireFormatSpec "COLLECT" "-C" channel.value seconds rpm])
    ∧ (channel ∉ REAGENT_CHANNELS ++ [Channel.WSHL] →
      (prime_wash_to_channel channel seconds rpm lines).writes = []
      ∧ ∃ d, (prime_wash_to_channel channel seconds rpm lines).result
          = .error (MfError.InvalidCombination d))
    ∧ (channel ∈ REAGENT_CHANNELS ++ [Channel.WSHL] →
      (prime_wash_to_channel channel seconds rpm lines).writes
        = [wireFormatSpec "PRIME" "CHEM_WASH" channel.value seconds rpm]) := by
  refine ⟨?_, ?_, ?_, ?_, ?_, ?_, ?_, ?_, ?_, ?_⟩
  · intro h
    have hc : ¬(command = "-C" ∨ command = "COLLECTION" ∨ command = "COMMON") := by
      simpa using h
    rw [wash, if_neg hc]
    exact ⟨rfl, "wash", rfl⟩
  · intro h
    have hc : command = "-C" ∨ command = "COLLECTION" ∨ command = "COMMON" := by
      simpa using h
    rw [wash, if_pos hc]
    rfl
  · intro h
    have hc : ¬(command = "CHEM_WASH" ∨ command = "-C") := by simpa using h
    rw [prime, if_neg hc]
    exact ⟨rfl, "prime", rfl⟩
  · intro h
    have hc : command = "CHEM_WASH" ∨ command = "-C" := by simpa using h
    rw [prime, if_pos hc]
    rfl
  · intro h
    have hc : ¬(command = "ALL" ∨ command = "COMMON") := by simpa using h
    rw [vent, if_neg hc]
    exact ⟨rfl, "vent", rfl⟩
  · intro h
    have hc : command = "ALL" ∨ command = "COMMON" := by simpa using h
    rw [vent, if_pos hc]
    rfl
  · intro h
    rw [collect, if_neg h]
    exact ⟨rfl, "collect", rfl⟩
  · intro h
    rw [collect, if_pos h]
    rfl
  · intro h
    rw [prime_wash_to_channel, if_neg h]
    exact ⟨rfl, "prime_wash_to_channel", rfl⟩
  · intro h
    rw [prime_wash_to_channel, if_pos h, prime, if_pos (Or.inl rfl)]
    rfl

/-- Witness for C4 at concrete inputs: an invalid wash qualifier writes
nothing and fails, a valid one writes the exact wire string; an invalid
collect target writes nothing, a valid one writes the exact wire string. -/
theorem claim_C4_witness :
    ((wash "BAD" Channel.CH01 25 36 []).writes = []
      ∧ ∃ d, (wash "BAD" Channel.CH01 25 36 []).result
          = .error (MfError.InvalidCombination d))
    ∧ (wash "COMMON" Channel.WSHL 25 36 []).writes
        = [wireFormatSpec "WASH" "COMMON" 0 25 36]
    ∧ ((collect Channel.WSHL 25 36 []).writes = []
      ∧ ∃ d, (collect Channel.WSHL 25 36 []).result
          = .error (MfError.InvalidCombination d))
    ∧ (collect Channel.CH03 25 36 []).writes
        = [wireFormatSpec "COLLECT" "-C" 3 25 36] :=
  ⟨(claim_C4 "BAD" Channel.CH01 25 36 []).1 (by decide),
   (claim_C4 "COMMON" Channel.WSHL 25 36 []).2.1 (by decide),
   (claim_C4 "X" Channel.WSHL 25 36 []).2.2.2.2.2.2.1 (by decide),
   (claim_C4 "X" Channel.CH03 25 36 []).2.2.2.2.2.2.2.1 (by decide)⟩

/-- C8: every `PURGE` command serialized by the API comes from `vent` (or
its derivatives `vent_common` and `vent_chip2waste`), which always supplies
`Channel.WSHL` regardless of its arguments; `WSHL` has numeric identifier 0
and no reagent channel has identifier 0, so a `PURGE` command never targets
a reagent channel. -/
theorem claim_C8 (command : String) (seconds rpm : Int) (lines : List String) :
    ((vent command seconds rpm lines).writes = []
      ∨ (vent command seconds rpm lines).writes
          = [compile_command "PURGE" command Channel.WSHL seconds rpm])
    ∧ Channel.WSHL.value = 0
    ∧ (REAGENT_CHANNELS.all fun c => c.value != 0) = true
    ∧ vent_common seconds rpm lines = vent "COMMON" seconds rpm lines
    ∧ vent_chip2waste seconds rpm lines = vent "ALL" seconds rpm lines := by
  refine ⟨?_, rfl, by decide, rfl, rfl⟩
  by_cases hc : command = "ALL" ∨ command = "COMMON"
  · right
    rw [vent, if_pos hc]
    rfl
  · left
    rw [vent, if_neg hc]
    rfl

/-- Witness for C8 at a concrete input: venting the common line writes only
a `PURGE` with channel identifier 0 (if anything). -/
theorem claim_C8_witness :
    ((vent "COMMON" 25 36 []).writes = []
      ∨ (vent "COMMON" 25 36 []).writes
          = [compile_command "PURGE" "COMMON" Channel.WSHL 25 36])
    ∧ Channel.WSHL.value = 0 :=
  ⟨(claim_C8 "COMMON" 25 36 []).1, (claim_C8 "COMMON" 25 36 []).2.1⟩

/-- C5 counterexample: for drain_voltage = 1.0 V and drain_current =
0.001 A the code computes a drain resistance of 1 (kΩ), not 0.5 as the
claim states (`abs((1.0/0.001)/1000) = 1.0`). -/
theorem claim_C5_counterexample :
    drain_resistance 1 (1/1000) = some 1
    ∧ drain_resistance 1 (1/1000) ≠ some (1/2) := by
  constructor
  · rw [drain_resistance, if_neg (by norm_num)]
    norm_num
  · rw [drain_resistance, if_neg (by norm_num)]
    norm_num

/-- C5 amended: when the measured drain current is exactly 0 the
drain-resistance field is the empty sentinel and the division is never
evaluated; when it is non-zero the drain resistance equals
`abs(drain_voltage/drain_current)/1000`; in particular, for
drain_voltage = 1.0 V and drain_current = 0.001 A the resistance is
1.0 (kΩ). -/
theorem claim_C5 (v c : Rat) :
    drain_resistance v 0 = none
    ∧ (c ≠ 0 → drain_resistance v c = some (abs (v / c) / 1000))
    ∧ drain_resistance 1 (1/1000) = some 1 := by
  refine ⟨rfl, ?_, ?_⟩
  · intro hc
    rw [drain_resistance, if_neg hc, abs_div,
      abs_of_pos (show (0 : Rat) < 1000 by norm_num)]
  · rw [drain_resistance, if_neg (by norm_num)]
    norm_num

/-- Witness for C5 at a concrete non-zero current: the resistance of
2 V over 4 A is `abs(2/4)/1000` kΩ. -/
theorem claim_C5_witness :
    drain_resistance 2 4 = some (abs ((2 : Rat) / 4) / 1000) :=
  (claim_C5 2 4).2.1 (by norm_num)

/-- Helper: the accumulated reading sequence of the acquisition loop is the
samples, enumerated from the starting counter value. -/
theorem run_smu_loop_results (samples : List SmuSample) :
    ∀ (i : Nat) (results : List SmuReading) (sink : SinkState),
      (run_smu_loop samples i results sink).1
        = results ++ ((samples.enumFrom i).map fun p => mkReading p.1 p.2) := by
  induction samples with
  | nil => intro i results sink; simp [run_smu_loop]
  | cons s rest ih =>
      intro i results sink
      simp [run_smu_loop, List.enumFrom, ih]

/-- Helper: whenever at least one sample was taken, the final sink state is
the last rewrite: the whole accumulated sequence, over whatever was in the
file before. -/
theorem run_smu_loop_sink (samples : List SmuSample) :
    ∀ (i : Nat) (results : List SmuReading) (sink : SinkState),
      samples ≠ [] →
      (run_smu_loop samples i results sink).2
        = write_results (run_smu_loop samples i results sink).1 sink := by
  induction samples with
  | nil => intro i results sink h; exact absurd rfl h
  | cons s rest ih =>
      intro i results sink _h
      by_cases hr : rest = []
      · subst hr
        simp [run_smu_loop, write_results]
      · rw [show run_smu_loop (s :: rest) i results sink
              = run_smu_loop rest (i + 1) (results ++ [mkReading i s])
                  (write_results (results ++ [mkReading i s]) sink) from rfl]
        rw [ih (i + 1) (results ++ [mkReading i s])
              (write_results (results ++ [mkReading i s]) sink) hr]
        rfl

/-- C7: the acquisition worker rewrites the sink after every sample with
the full accumulated sequence (header plus one row per reading, replacing
all prior sink content — so the final sink does not depend on what was in
it before), and after the loop ends the persisted sink content equals
exactly the accumulated reading sequence; if no sample was ever taken the
sink is never touched. -/
theorem claim_C7 (samples : List SmuSample) (sink sinkB : SinkState) :
    (run_smu samples sink).1
      = samples.enum.map (fun p => mkReading p.1 p.2)
    ∧ (samples ≠ [] →
        (run_smu samples sink).2.content
          = some (smuFieldnames, (run_smu samples sink).1))
    ∧ (samples ≠ [] → (run_smu samples sink).2 = (run_smu samples sinkB).2)
    ∧ (samples = [] → (run_smu samples sink).2 = sink) := by
  refine ⟨?_, ?_, ?_, ?_⟩
  · simpa using run_smu_loop_results samples 0 [] sink
  · intro h
    rw [run_smu, run_smu_loop_sink samples 0 [] sink h]
    rfl
  · intro h
    rw [run_smu, run_smu, run_smu_loop_sink samples 0 [] sink h,
      run_smu_loop_sink samples 0 [] sinkB h,
      run_smu_loop_results samples 0 [] sink,
      run_smu_loop_results samples 0 [] sinkB]
    rfl
  · intro h
    subst h
    rfl

/-- Witness for C7 at a concrete run: with two samples delivered into an
initially missing file, the persisted content is the header and exactly
the two accumulated readings, independent of the initial sink. -/
theorem claim_C7_witness :
    (run_smu [SmuSample.mk 1 2 3 4, SmuSample.mk 5 6 7 8]
        (SinkState.mk none)).2.content
      = some (smuFieldnames,
          (run_smu [SmuSample.mk 1 2 3 4, SmuSample.mk 5 6 7 8]
            (SinkState.mk none)).1)
    ∧ (run_smu [SmuSample.mk 1 2 3 4, SmuSample.mk 5 6 7 8]
          (SinkState.mk none)).2
        = (run_smu [SmuSample.mk 1 2 3 4, SmuSample.mk 5 6 7 8]
            (SinkState.mk (some (smuFieldnames, [])))).2 :=
  ⟨(claim_C7 [SmuSample.mk 1 2 3 4, SmuSample.mk 5 6 7 8]
      (SinkState.mk none) (SinkState.mk none)).2.1 (by simp),
   (claim_C7 [SmuSample.mk 1 2 3 4, SmuSample.mk 5 6 7 8]
      (SinkState.mk none)
      (SinkState.mk (some (smuFieldnames, [])))).2.2.1 (by simp)⟩

/-- Helper: the outer pump loop repeats its body once per remaining second
(`(seconds - counter).toNat` times). -/
theorem pump_loop_eq (G C : List Rat) (seconds : Int) :
    ∀ counter : Int,
      pump_loop G C seconds counter
        = (List.replicate (seconds - counter).toNat (pumpIteration G C)).flatten := by
  suffices h : ∀ (n : Nat) (counter : Int), (seconds - counter).toNat = n →
      pump_loop G C seconds counter
        = (List.replicate n (pumpIteration G C)).flatten by
    intro counter
    exact h _ counter rfl
  intro n
  induction n with
  | zero =>
      intro counter hn
      have hns : ¬ counter < seconds := by omega
      rw [pump_loop, dif_neg hns]
      simp
  | succ n ih =>
      intro counter hn
      have hlt : counter < seconds := by omega
      rw [pump_loop, dif_pos hlt, ih (counter + 1) (by omega)]
      simp [List.replicate_succ]

/-- Helper: the readings observer distributes over concatenation. -/
theorem readingsOf_append (a b : List PumpEvent) :
    readingsOf (a ++ b) = readingsOf a ++ readingsOf b := by
  induction a with
  | nil => rfl
  | cons e rest ih => cases e <;> simp [readingsOf, ih]

/-- Helper: one row of the grid yields one reading per channel voltage. -/
theorem readingsOf_row (g : Rat) (C : List Rat) :
    readingsOf (C.map fun c => PumpEvent.reading g c)
      = C.map fun c => (g, c) := by
  induction C with
  | nil => rfl
  | cons c C ih => simp [readingsOf, ih]

/-- Helper: a full grid sweep yields `|G| * |C|` readings. -/
theorem length_readingsOf_grid (G C : List Rat) :
    (readingsOf (gridReadings G C)).length = G.length * C.length := by
  induction G with
  | nil => simp [gridReadings, readingsOf]
  | cons g G ih =>
      rw [gridReadings, List.flatMap_cons, readingsOf_append, readingsOf_row]
      rw [gridReadings] at ih
      simp [ih, Nat.succ_mul, Nat.add_comm]

/-- Helper: one outer iteration yields exactly the grid readings. -/
theorem length_readingsOf_iteration (G C : List Rat) :
    (readingsOf (pumpIteration G C)).length = G.length * C.length := by
  rw [pumpIteration]
  simp [readingsOf, readingsOf_append, length_readingsOf_grid]

/-- Helper: `n` repetitions of a block yield `n` times its readings. -/
theorem length_readingsOf_replicate (B : List PumpEvent) :
    ∀ n : Nat, (readingsOf ((List.replicate n B).flatten)).length
      = n * (readingsOf B).length := by
  intro n
  induction n with
  | zero => simp [readingsOf]
  | succ n ih =>
      simp [List.replicate_succ, readingsOf_append, ih, Nat.succ_mul,
        Nat.add_comm]

/-- C6: for every dwell duration, gate-voltage grid and channel-voltage
grid, `pump_and_read` is the dwell-many repetition of (one command
exchange, one full grid sweep, both outputs off); it yields exactly
`seconds * |G| * |C|` readings when `seconds > 0`, and no readings (and no
error) when `seconds` is zero or negative. -/
theorem claim_C6 (G C : List Rat) (seconds : Int) :
    pump_and_read G C seconds
      = (List.replicate seconds.toNat (pumpIteration G C)).flatten
    ∧ (seconds ≤ 0 → pump_and_read G C seconds = [])
    ∧ (0 < seconds →
        (readingsOf (pump_and_read G C seconds)).length
          = seconds.toNat * (G.length * C.length)) := by
  have hmain : pump_and_read G C seconds
      = (List.replicate seconds.toNat (pumpIteration G C)).flatten := by
    rw [pump_and_read, pump_loop_eq G C seconds 0]
    norm_num
  refine ⟨hmain, ?_, ?_⟩
  · intro h
    rw [hmain, show seconds.toNat = 0 by omega]
    rfl
  · intro _h
    rw [hmain, length_readingsOf_replicate, length_readingsOf_iteration]

/-- Witness for C6 at concrete inputs: a 2 s dwell over a 2×2 grid yields
8 readings, and a negative dwell yields no events at all. -/
theorem claim_C6_witness :
    (readingsOf (pump_and_read [0, 1] [1/2, -1/2] 2)).length = 8
    ∧ pump_and_read [0, 1] [1/2, -1/2] (-3) = [] :=
  ⟨(claim_C6 [0, 1] [1/2, -1/2] 2).2.2 (by norm_num),
   (claim_C6 [0, 1] [1/2, -1/2] (-3)).2.1 (by norm_num)⟩

/-- Helper: if no `inst.connect()` attempt ever succeeds, the retry loop
makes one attempt and one backoff sleep per retry value from `retry` up to
`retries`, then fails with the message reporting `retries`. -/
theorem connect_loop_fails (succeeds : Int → Bool)
    (hfail : ∀ n, succeeds n = false) (retries : Int) :
    ∀ (retry : Int) (attempts sleeps : Nat),
      connect_loop succeeds retries retry attempts sleeps
        = ({ result := .failed (connectFailureMessage retries)
             attempts := attempts + (retries + 1 - retry).toNat
             sleeps := sleeps + (retries + 1 - retry).toNat } : ConnectTrace) := by
  suffices h : ∀ (n : Nat) (retry : Int), (retries + 1 - retry).toNat = n →
      ∀ attempts sleeps : Nat,
        connect_loop succeeds retries retry attempts sleeps
          = ({ result := .failed (connectFailureMessage retries)
               attempts := attempts + n
               sleeps := sleeps + n } : ConnectTrace) by
    intro retry attempts sleeps
    exact h _ retry rfl attempts sleeps
  intro n
  induction n with
  | zero =>
      intro retry hn attempts sleeps
      have hgt : retries < retry := by omega
      rw [connect_loop, dif_pos hgt]
      simp
  | succ n ih =>
      intro retry hn attempts sleeps
      have hle : ¬ retries < retry := by omega
      rw [connect_loop, dif_neg hle]
      simp only [hfail retry, Bool.false_eq_true, if_false]
      rw [ih (retry + 1) (by omega) (attempts + 1) (sleeps + 1)]
      congr 1 <;> omega

/-- C9: if the instrument link can never be established, `connect` makes a
bounded number of in-loop retry attempts (`(retries - 1).toNat`, for retry
counter values 2 .. retries), with one fixed backoff sleep between
attempts, then — and only then — raises the connection error whose message
reports the `retries` bound; it never retries forever. -/
theorem claim_C9 (retries : Int) (succeeds : Int → Bool)
    (hfail : ∀ n, succeeds n = false) :
    connect false succeeds retries
      = ({ result := .failed (connectFailureMessage retries)
           attempts := (retries - 1).toNat
           sleeps := (retries - 1).toNat } : ConnectTrace) := by
  rw [connect, if_neg (by simp)]
  rw [connect_loop_fails succeeds hfail retries 2 0 0]
  congr 1 <;> omega

/-- Witness for C9 at the source's default bound: with `retries = 10` and
an oracle that never connects, `connect` makes 9 in-loop attempts and 9
backoff sleeps, then fails with the message reporting 10 attempts. -/
theorem claim_C9_witness :
    connect false (fun _ => false) 10
      = ({ result := .failed (connectFailureMessage 10)
           attempts := 9
           sleeps := 9 } : ConnectTrace) :=
  claim_C9 10 (fun _ => false) (fun _ => rfl)

set_option maxRecDepth 40000 in
/-- C2 counterexample: in the trace of `run_fluid_detection_loop` the
mutual-exclusion discipline the claim states does not hold — the very
second event is a fluidic command (the 120 s vent to collection) issued
after the acquisition worker was started and before it is joined, so
fluidic actuation and electrical sampling do run concurrently. -/
theorem claim_C2_counterexample :
    mutualExclusionCheck run_fluid_detection_loop_events = false
    ∧ isFluidCommand (run_fluid_detection_loop_events.getD 1 default) = true
    ∧ workerIdleAt run_fluid_detection_loop_events 1 = false := by
  refine ⟨by decide, by decide, by decide⟩

set_option maxRecDepth 40000 in
/-- C2 amended: in `run_fluid_detection_loop` the acquisition worker runs
*during* fluidic actuation by design: every phase starts the worker first,
issues all of its fluidic commands while exactly one started worker is
still unjoined, and only stops and joins the worker after the phase's last
fluidic command (so the worker is joined before the next phase begins, but
not before the phase's own fluidic commands). -/
theorem claim_C2 :
    fluidDuringWorkerCheck run_fluid_detection_loop_events = true
    ∧ ∀ channel : Channel, ∃ pre : List SeqEvent,
        channelPhaseEvents channel
          = (SeqEvent.startWorker channel :: pre)
            ++ [SeqEvent.stopWorker channel, SeqEvent.joinWorker channel] := by
  refine ⟨by decide, ?_⟩
  intro channel
  refine ⟨collectEvent Channel.VENT 120 ::
    ((List.replicate 5 [collectEvent channel 5, collectEvent Channel.VENT 1]).flatten
      ++ [collectEvent channel 90, collectEvent Channel.VENT 120]), ?_⟩
  simp [channelPhaseEvents]
